import Mathlib

/-!
Verification of the poe_flipper clipboard flipping script
(`Flipper Script/flip.py`).

The script is a linear pipeline: read a text block, tokenize it into
lines of whitespace-separated tokens, classify the item via exact-token
membership tests, filter the lines, extract numbers, and apply a
closed-form formula.  We embed that pipeline shallowly:

* Python strings are Lean `String`s; character-level operations work on
  `String.data` (`List Char`) with structural recursion only, so every
  definition evaluates by kernel reduction.
* Python `float` arithmetic is modelled by exact rational arithmetic
  (`ℚ`); decimal literals such as `0.4`, `1.2` denote the exact
  rationals that the source's formulas intend.
* Fallible operations (`int(...)`, sequence indexing, tuple unpacking,
  division by zero) return `Except PyErr`; the driver loop's
  `except Exception` catch-all is the `Except` handler in `runCycle`.
* `str(item)` applied to a Python list of strings (which is what
  `main` feeds to `extract_armor` / `extract_weapon`: whole token
  lines, not tokens) is modelled by `pyStrList`, which reproduces
  Python's rendering `['a', 'b']` for quote-free tokens; quoting-style
  differences for tokens containing quote characters do not affect the
  digit/percent/keyword content the extractors inspect.
-/

namespace Flip

/-- Error kinds a cycle of the script can raise: sequence indexing out of
range (`IndexError`), malformed `int(...)` input or tuple-unpacking
mismatch (`ValueError`), and division by zero (`ZeroDivisionError`). -/
inductive PyErr where
  | indexError
  | valueError
  | zeroDivision
deriving DecidableEq

/-- Value of the digit characters of a string read left to right, all
non-digits skipped: models `int(re.sub(r'\D', '', item))` (and, on an
all-digit run, plain `int`). -/
def digitsVal (l : List Char) : Nat :=
  l.foldl (fun a c => if c.isDigit then 10 * a + (c.toNat - 48) else a) 0

/-- Does the character list contain a digit?  Models `re.search(r'\d', item)`. -/
def hasDigit (l : List Char) : Bool :=
  l.any Char.isDigit

/-- `re.search(r'\d', item)` on a Lean string. -/
def strHasDigit (s : String) : Bool :=
  hasDigit s.data

/-- `int(re.sub(r'\D', '', item))` on a Lean string. -/
def strDigits (s : String) : Nat :=
  digitsVal s.data

/-- Single-character membership, models Python's `c in item` for strings. -/
def strHasChar (s : String) (c : Char) : Bool :=
  s.data.contains c

/-- Is the first list a prefix of the second? -/
def hasPrefixB : List Char → List Char → Bool
  | [], _ => true
  | _ :: _, [] => false
  | a :: as, b :: bs => a = b && hasPrefixB as bs

/-- Does the second list contain the first as a contiguous sublist? -/
def hasInfixB (pat : List Char) : List Char → Bool
  | [] => pat.isEmpty
  | c :: cs => hasPrefixB pat (c :: cs) || hasInfixB pat cs

/-- Substring test, models Python's `pat in item` for strings. -/
def substrB (pat s : String) : Bool :=
  hasInfixB pat.data s.data

/-- `text.split(sep)` for a one-character separator: splits at every
occurrence, keeping empty pieces, exactly like Python `str.split('\n')`
or `str.split('-')`. -/
def splitOnChar (sep : Char) : List Char → List (List Char)
  | [] => [[]]
  | c :: cs =>
    let r := splitOnChar sep cs
    if c = sep then [] :: r
    else
      match r with
      | [] => [[c]]
      | g :: gs => (c :: g) :: gs

/-- Python `str.strip()`: drop leading and trailing whitespace. -/
def pyStrip (l : List Char) : List Char :=
  ((l.dropWhile Char.isWhitespace).reverse.dropWhile Char.isWhitespace).reverse

/-- One step of the right fold behind `wsSplit`: the accumulator carries
the token currently being built and the finished tokens to the right. -/
def wsFold (c : Char) (acc : List Char × List (List Char)) : List Char × List (List Char) :=
  if c.isWhitespace then
    ([], if acc.1.isEmpty then acc.2 else acc.1 :: acc.2)
  else
    (c :: acc.1, acc.2)

/-- Python `str.split()` with no argument: maximal runs of
non-whitespace characters, empty tokens dropped. -/
def wsSplit (l : List Char) : List (List Char) :=
  let r := l.foldr wsFold ([], [])
  if r.1.isEmpty then r.2 else r.1 :: r.2

/-- Line tokenizer of `extract_stats`:
`[line.strip().split() for line in data_block.split('\n') if line.strip()]`. -/
def tokenizeBlock (block : String) : List (List String) :=
  (splitOnChar (Char.ofNat 10) block.data).filterMap fun line =>
    let t := pyStrip line
    if t.isEmpty then none
    else some ((wsSplit t).map fun cs => String.mk cs)

/-- `esBool`: some line has the exact token `Energy`. -/
def esBool (data : List (List String)) : Bool :=
  data.any fun l => l.contains "Energy"

/-- `chestBool`: some line has the exact token `Body`. -/
def chestBool (data : List (List String)) : Bool :=
  data.any fun l => l.contains "Body"

/-- `martBool`: some line has the exact token `Damage:`. -/
def martBool (data : List (List String)) : Bool :=
  data.any fun l => l.contains "Damage:"

/-- `eleBool`: some line has one of the exact tokens
`Fire`, `Cold`, `Lightning`, `Elemental`. -/
def eleBool (data : List (List String)) : Bool :=
  data.any fun l => ["Fire", "Cold", "Lightning", "Elemental"].any fun d => l.contains d

/-- Keep condition of the energy-shield branch of `extract_stats`:
`('Energy' in sublist and 'Shield' in sublist or 'Shield:' in sublist)
and 'Recharge' not in sublist and 'maximum' not in sublist`. -/
def keepES (l : List String) : Bool :=
  (l.contains "Energy" && l.contains "Shield" || l.contains "Shield:")
    && !l.contains "Recharge" && !l.contains "maximum"

/-- Keep condition of the weapon branch when `eleBool` holds:
`('Damage:' in sublist) or 'Attacks' in sublist or
'increased' in sublist and not 'Adds' in sublist`. -/
def keepWeaponEle (l : List String) : Bool :=
  l.contains "Damage:" || l.contains "Attacks"
    || (l.contains "increased" && !l.contains "Adds")

/-- Keep condition of the weapon branch when `eleBool` fails:
`('Damage:' in sublist and 'Physical' in sublist) or 'Attacks' in sublist
or 'increased' in sublist and not 'Adds' in sublist`. -/
def keepWeaponPhys (l : List String) : Bool :=
  (l.contains "Damage:" && l.contains "Physical") || l.contains "Attacks"
    || (l.contains "increased" && !l.contains "Adds")

/-- Keep condition of the generic armor branch:
`'Evasion' in sublist and not 'to' in sublist`. -/
def keepEvasion (l : List String) : Bool :=
  l.contains "Evasion" && !l.contains "to"

/-- The pure core of `extract_stats` (its clipboard I/O stripped): given
the tokenized block, return the filtered lines together with the tuple
`(esBool, chestBool, martBool, eleBool)`. -/
def extract_stats (data : List (List String)) : List (List String) × (Bool × Bool × Bool × Bool) :=
  let filtered :=
    if esBool data then data.filter keepES
    else if martBool data then
      if eleBool data then data.filter keepWeaponEle else data.filter keepWeaponPhys
    else data.filter keepEvasion
  (filtered, (esBool data, chestBool data, martBool data, eleBool data))

/-- Characters of Python's `repr` of a quote-free string: the string in
single quotes. -/
def pyReprChars (s : String) : List Char :=
  Char.ofNat 39 :: (s.data ++ [Char.ofNat 39])

/-- Characters of the comma-space-separated element renderings inside
Python's `str` of a list of strings. -/
def pySepChars : List String → List Char
  | [] => []
  | [s] => pyReprChars s
  | s :: s2 :: rest => pyReprChars s ++ (',' :: ' ' :: pySepChars (s2 :: rest))

/-- Python's `str(item)` for `item` a list of strings, e.g.
`str(['a', 'b'])`.  This is what `item = str(item)` produces inside
`extract_armor` / `extract_weapon` when `main` passes the token lines. -/
def pyStrList (l : List String) : String :=
  String.mk ('[' :: (pySepChars l ++ [']']))

/-- Loop body of `extract_armor`: if the (rendered) item contains a
digit, strip non-digits, divide by 100 when a `%` occurs anywhere in the
item, and append; otherwise leave the accumulator unchanged. -/
def armorStep (numbers : List ℚ) (item : String) : List ℚ :=
  if strHasDigit item then
    if strHasChar item '%' then numbers ++ [(strDigits item : ℚ) / 100]
    else numbers ++ [(strDigits item : ℚ)]
  else numbers

/-- `extract_armor`: fold `armorStep` over the items (in the program,
the `str`-rendered token lines). -/
def extract_armor (sublist : List String) : List ℚ :=
  sublist.foldl armorStep []

/-- The at-most-one number a single item contributes to
`extract_armor`'s output: `none` when the item has no digit, otherwise
the merged digit value, divided by 100 when a `%` occurs anywhere. -/
def armorItemNumber (item : String) : Option ℚ :=
  if strHasDigit item then
    some (if strHasChar item '%' then (strDigits item : ℚ) / 100 else (strDigits item : ℚ))
  else none

theorem extract_armor_foldl_acc (l : List String) :
    ∀ acc : List ℚ, l.foldl armorStep acc = acc ++ l.filterMap armorItemNumber := by
  induction l with
  | nil => intro acc; simp
  | cons a l ih =>
    intro acc
    simp only [List.foldl_cons, List.filterMap_cons, ih, armorStep, armorItemNumber]
    split
    · split <;> simp
    · simp

theorem extract_armor_eq_filterMap (l : List String) :
    extract_armor l = l.filterMap armorItemNumber := by
  simpa using extract_armor_foldl_acc l []

/-- The three numeric buckets `extract_weapon` fills. -/
structure WeaponStats where
  physical : List ℚ
  elemental : List ℚ
  speed : List ℚ
deriving DecidableEq

/-- Character-class tokens used to replay `re.findall(r'(\d+-\d+)', item)`:
maximal digit runs, hyphens, and everything else. -/
inductive Tok where
  | num (ds : List Char)
  | dash
  | other

/-- Group a character list into `Tok`s, merging adjacent digits into
maximal runs. -/
def toks : List Char → List Tok
  | [] => []
  | c :: cs =>
    let t := toks cs
    if c.isDigit then
      match t with
      | Tok.num ds :: rest => Tok.num (c :: ds) :: rest
      | _ => Tok.num [c] :: t
    else if c = '-' then Tok.dash :: t
    else Tok.other :: t

/-- Replay of `re.findall(r'(\d+-\d+)', item)` followed by
`range.split('-')`: each leftmost non-overlapping `digits-digits` match,
as a pair of values; scanning resumes after a match's second run. -/
def scanRanges : List Tok → List (Nat × Nat)
  | Tok.num a :: Tok.dash :: Tok.num b :: rest => (digitsVal a, digitsVal b) :: scanRanges rest
  | _ :: rest => scanRanges rest
  | [] => []

/-- Python `int(...)` on a string made only of digits and hyphens (the
output of `re.sub(r'[^\d-]', '', item)`): an optional leading minus sign
followed by at least one digit; anything else raises `ValueError`. -/
def pyInt : List Char → Except PyErr Int
  | '-' :: rest =>
    if rest.isEmpty then Except.error PyErr.valueError
    else if rest.all Char.isDigit then Except.ok (-(digitsVal rest : Int))
    else Except.error PyErr.valueError
  | l =>
    if l.isEmpty then Except.error PyErr.valueError
    else if l.all Char.isDigit then Except.ok (digitsVal l : Int)
    else Except.error PyErr.valueError

/-- `start, end = map(int, number.split('-'))`: fails unless the split
has exactly two parts and both parse as integers. -/
def parsePairInts (l : List Char) : Except PyErr (Int × Int) :=
  match splitOnChar '-' l with
  | [a, b] => do
    let x ← pyInt a
    let y ← pyInt b
    Except.ok (x, y)
  | _ => Except.error PyErr.valueError

/-- Loop body of `extract_weapon` over one (rendered) item. -/
def weaponStep (ns : WeaponStats) (item : String) : Except PyErr WeaponStats :=
  if strHasDigit item then
    if substrB "Elemental" item && strHasChar item '-' then
      let mean : ℚ :=
        (scanRanges (toks item.data)).foldl (fun m p => m + ((p.1 : ℚ) + (p.2 : ℚ)) / 2) 0
      Except.ok { ns with elemental := ns.elemental ++ [mean] }
    else
      let number := item.data.filter fun c => c.isDigit || c = '-'
      if strHasChar item '%' then
        if substrB "Physical" item then do
          let n ← pyInt number
          Except.ok { ns with physical := ns.physical ++ [(n : ℚ) / 100] }
        else Except.ok ns
      else if strHasChar item '-' then do
        let se ← parsePairInts number
        let mean : ℚ := ((se.1 : ℚ) + (se.2 : ℚ)) / 2
        if substrB "Damage" item && substrB "Physical" item then
          Except.ok { ns with physical := ns.physical ++ [mean] }
        else if substrB "Damage" item
            && (substrB "Fire" item || substrB "Cold" item || substrB "Lightning" item) then
          Except.ok { ns with elemental := ns.elemental ++ [mean] }
        else Except.ok ns
      else if substrB "Second:" item then do
        let n ← pyInt number
        Except.ok { ns with speed := ns.speed ++ [(n : ℚ) / 100] }
      else Except.ok ns
  else Except.ok ns

/-- `extract_weapon`: fold `weaponStep` over the items (in the program,
the `str`-rendered token lines).  The source's trailing
`if not numbers: return [0]` tests a three-key dict, which is always
truthy, so that branch is unreachable and not modelled. -/
def extract_weapon (sublist : List String) : Except PyErr WeaponStats :=
  sublist.foldlM weaponStep ⟨[], [], []⟩

/-- The arithmetic core shared by both evaluators:
`(base / (increase + 1)) * (increase + 1 + fac) * 1.2`. -/
def armorFormula (base increase fac : ℚ) : ℚ :=
  (base / (increase + 1)) * (increase + 1 + fac) * 1.2

/-- `flippid_armor`: factor 0.4 when `check` else 0.2; unpack
`(base, increase)` from a length-2 list, else `(numbers[0], 0)`
(raising `IndexError` on an empty list, and `ZeroDivisionError` when
`increase + 1 = 0`, exactly as Python float division would). -/
def flippid_armor (numbers : List ℚ) (check : Bool) : Except PyErr ℚ :=
  let fac : ℚ := if check then 0.4 else 0.2
  match numbers with
  | [] => Except.error PyErr.indexError
  | [base, increase] =>
    if increase + 1 = 0 then Except.error PyErr.zeroDivision
    else Except.ok (armorFormula base increase fac)
  | base :: _ => Except.ok (armorFormula base 0 fac)

/-- `flippid_mart`: elemental total (0 for an empty bucket), then
`atk = numbers['speed'][0]` (the first possible `IndexError`), then
`dmg = numbers['physical'][0]` (the second), `increase` defaulting to 0,
and the DPS formulas.  Returns `(pdps, edps, tot)`. -/
def flippid_mart (numbers : WeaponStats) : Except PyErr (ℚ × ℚ × ℚ) :=
  let ele : ℚ := if numbers.elemental.isEmpty then 0 else numbers.elemental.sum
  match numbers.speed with
  | [] => Except.error PyErr.indexError
  | atk :: _ =>
    match numbers.physical with
    | [] => Except.error PyErr.indexError
    | dmg :: physRest =>
      let increase : ℚ := match physRest with | [] => 0 | i :: _ => i
      if increase + 1 = 0 then Except.error PyErr.zeroDivision
      else
        let edps := ele * atk
        let pdps := (dmg / (increase + 1)) * (increase + 1 + 0.4) * 1.2 * atk
        Except.ok (pdps, edps, edps + pdps)

/-- What one cycle of `main` prints: a weapon DPS line, an armor result
line (the Bool records whether the body-armor factor was used), or the
catch-all's error report. -/
inductive CycleOutput where
  | weaponResult (pdps edps tot : ℚ)
  | armorResult (chest : Bool) (result : ℚ)
  | errorCaught (e : PyErr)
deriving DecidableEq

/-- One iteration of `main`'s loop on a captured clipboard block:
tokenize, classify and filter via `extract_stats`, dispatch on
`martBool` then `chestBool`, extract and evaluate; any error anywhere is
caught by the loop's `except Exception` and reported. -/
def runCycle (block : String) : CycleOutput :=
  let parsed := extract_stats (tokenizeBlock block)
  let data := parsed.1
  let chest := parsed.2.2.1
  let mart := parsed.2.2.2.1
  let res : Except PyErr CycleOutput :=
    if mart then do
      let stats ← extract_weapon (data.map pyStrList)
      let r ← flippid_mart stats
      Except.ok (CycleOutput.weaponResult r.1 r.2.1 r.2.2)
    else if chest then do
      let r ← flippid_armor (extract_armor (data.map pyStrList)) true
      Except.ok (CycleOutput.armorResult true r)
    else do
      let r ← flippid_armor (extract_armor (data.map pyStrList)) false
      Except.ok (CycleOutput.armorResult false r)
  match res with
  | Except.ok o => o
  | Except.error e => CycleOutput.errorCaught e

/-- The driver loop over a stream of captured blocks: every block is
processed, errors included — an erroring cycle never stops the loop. -/
def runLoop (blocks : List String) : List CycleOutput :=
  blocks.map runCycle

theorem extract_stats_snd (data : List (List String)) :
    (extract_stats data).2 = (esBool data, chestBool data, martBool data, eleBool data) := rfl

theorem extract_stats_fst_es (data : List (List String)) (h : esBool data = true) :
    (extract_stats data).1 = data.filter keepES := by
  simp [extract_stats, h]

theorem flippid_armor_nil (check : Bool) :
    flippid_armor [] check = Except.error PyErr.indexError := rfl

theorem flippid_armor_pair (b i : ℚ) (check : Bool) (h : i + 1 ≠ 0) :
    flippid_armor [b, i] check = Except.ok (armorFormula b i (if check then 0.4 else 0.2)) := by
  simp [flippid_armor, h]

/-- Claim C4: for every input to the armor extractor, an item that
contains a digit and a percent sign contributes the merged digit value
divided by 100 — the fraction, never the raw integer (they differ
whenever the digits are nonzero). -/
theorem percent_token_extracts_fraction (xs ys : List String) (item : String)
    (hd : strHasDigit item = true) (hp : strHasChar item '%' = true) :
    extract_armor (xs ++ item :: ys) =
      extract_armor xs ++ ((strDigits item : ℚ) / 100) :: extract_armor ys ∧
    (strDigits item ≠ 0 → (strDigits item : ℚ) / 100 ≠ (strDigits item : ℚ)) := by
  constructor
  · simp [extract_armor_eq_filterMap, List.filterMap_append, List.filterMap_cons,
      armorItemNumber, hd, hp]
  · intro h0 heq
    have hq : (strDigits item : ℚ) ≠ 0 := Nat.cast_ne_zero.mpr h0
    have : (strDigits item : ℚ) / 100 < (strDigits item : ℚ) := by
      have hpos : (0 : ℚ) < (strDigits item : ℚ) := by positivity
      linarith [div_lt_self hpos (by norm_num : (1 : ℚ) < 100)]
    exact absurd heq (ne_of_lt this)

/-- Witness for C4 at the item `20%`, exactly the spec's example token. -/
theorem percent_token_extracts_fraction_witness :
    strHasDigit "20%" = true ∧ strHasChar "20%" '%' = true ∧
    (extract_armor ([] ++ "20%" :: []) =
        extract_armor [] ++ ((strDigits "20%" : ℚ) / 100) :: extract_armor [] ∧
      (strDigits "20%" ≠ 0 → (strDigits "20%" : ℚ) / 100 ≠ (strDigits "20%" : ℚ))) :=
  ⟨by decide, by decide, percent_token_extracts_fraction [] [] "20%" (by decide) (by decide)⟩

/-- Claim C5: a one-element armor stat list is evaluated exactly like
the same list padded with a zero increase, for every base value and
both factor choices. -/
theorem flippid_armor_singleton_pads_zero (x : ℚ) (check : Bool) :
    flippid_armor [x] check = flippid_armor [x, 0] check := by
  have h : (0 : ℚ) + 1 ≠ 0 := by norm_num
  simp [flippid_armor, h]

/-- Counterexample to claim C6 as stated over all inputs: with the
negative increase `-11/10` the evaluator is strictly decreasing in the
base (1 ≤ 2 yet the result drops from `-6/5` to `-12/5`), and at the
negative base `-1` the factor-0.4 result is strictly below the
factor-0.2 result. -/
theorem flippid_armor_factor_counterexample :
    (flippid_armor [1, -11/10] false = Except.ok (-6/5) ∧
      flippid_armor [2, -11/10] false = Except.ok (-12/5) ∧
      ¬ ((-6/5 : ℚ) ≤ -12/5)) ∧
    (flippid_armor [-1, 0] true = Except.ok (-42/25) ∧
      flippid_armor [-1, 0] false = Except.ok (-36/25) ∧
      ¬ ((-36/25 : ℚ) ≤ -42/25)) := by
  refine ⟨⟨?_, ?_, by norm_num⟩, ⟨?_, ?_, by norm_num⟩⟩ <;>
    · rw [flippid_armor_pair _ _ _ (by norm_num)]
      simp [armorFormula]
      norm_num

/-- Claim C6 amended: for any fixed nonnegative increase the evaluator
is monotone in the base (every base, negative ones included), and for
identical inputs with nonnegative base and nonnegative increase the
factor-0.4 result dominates the factor-0.2 result. -/
theorem flippid_armor_monotone_nonneg (b₁ b₂ i : ℚ) (check : Bool)
    (hi : 0 ≤ i) (hbb : b₁ ≤ b₂) :
    (∃ r₁ r₂ : ℚ,
      flippid_armor [b₁, i] check = Except.ok r₁ ∧
      flippid_armor [b₂, i] check = Except.ok r₂ ∧
      r₁ ≤ r₂) ∧
    (0 ≤ b₁ →
      ∃ s t : ℚ,
        flippid_armor [b₁, i] false = Except.ok s ∧
        flippid_armor [b₁, i] true = Except.ok t ∧
        s ≤ t) := by
  have hpos : (0 : ℚ) < i + 1 := by linarith
  have hne : i + 1 ≠ 0 := ne_of_gt hpos
  have hfac : (0 : ℚ) ≤ (if check then (0.4 : ℚ) else 0.2) := by
    cases check <;> norm_num
  constructor
  · refine ⟨_, _, flippid_armor_pair b₁ i check hne, flippid_armor_pair b₂ i check hne, ?_⟩
    unfold armorFormula
    have h1 : b₁ / (i + 1) ≤ b₂ / (i + 1) := by
      exact (div_le_div_iff_of_pos_right hpos).mpr hbb
    exact mul_le_mul_of_nonneg_right
      (mul_le_mul_of_nonneg_right h1 (by linarith)) (by norm_num)
  · intro hb
    refine ⟨_, _, flippid_armor_pair b₁ i false hne, flippid_armor_pair b₁ i true hne, ?_⟩
    unfold armorFormula
    have hq : (0 : ℚ) ≤ b₁ / (i + 1) := div_nonneg hb (le_of_lt hpos)
    have h2 : i + 1 + (0.2 : ℚ) ≤ i + 1 + 0.4 := by norm_num
    simp only [if_true, if_false]
    exact mul_le_mul_of_nonneg_right (mul_le_mul_of_nonneg_left h2 hq) (by norm_num)

/-- Witness for the amended C6 at base values 1 ≤ 2 and increase 0,
with the nonnegative-base side condition of the factor comparison
discharged at base 1. -/
theorem flippid_armor_monotone_nonneg_witness :
    (0 : ℚ) ≤ 0 ∧ (1 : ℚ) ≤ 2 ∧
    (∃ r₁ r₂ : ℚ,
      flippid_armor [1, 0] true = Except.ok r₁ ∧
      flippid_armor [2, 0] true = Except.ok r₂ ∧
      r₁ ≤ r₂) ∧
    (∃ s t : ℚ,
      flippid_armor [1, 0] false = Except.ok s ∧
      flippid_armor [1, 0] true = Except.ok t ∧
      s ≤ t) :=
  ⟨by decide, by decide,
    (flippid_armor_monotone_nonneg 1 2 0 true (by decide) (by decide)).1,
    (flippid_armor_monotone_nonneg 1 2 0 true (by decide) (by decide)).2 (by decide)⟩

/-- Claim C7: when some line carries the exact token `Energy`, a line
survives the filter exactly when it carries both `Energy` and `Shield`
or carries `Shield:`, and carries neither `Recharge` nor `maximum`; in
particular no kept line carries `Recharge` or `maximum`. -/
theorem energy_filter_characterization (data : List (List String))
    (hes : esBool data = true) :
    (∀ l : List String, l ∈ (extract_stats data).1 ↔
      l ∈ data ∧
        ((l.contains "Energy" = true ∧ l.contains "Shield" = true) ∨ l.contains "Shield:" = true) ∧
        l.contains "Recharge" = false ∧ l.contains "maximum" = false) ∧
    (∀ l ∈ (extract_stats data).1,
      l.contains "Recharge" = false ∧ l.contains "maximum" = false) := by
  have hmem : ∀ l : List String, l ∈ (extract_stats data).1 ↔
      l ∈ data ∧
        ((l.contains "Energy" = true ∧ l.contains "Shield" = true) ∨ l.contains "Shield:" = true) ∧
        l.contains "Recharge" = false ∧ l.contains "maximum" = false := by
    intro l
    rw [extract_stats_fst_es data hes, List.mem_filter]
    simp only [keepES, Bool.and_eq_true, Bool.or_eq_true, Bool.not_eq_true']
    tauto
  exact ⟨hmem, fun l hl => ((hmem l).mp hl).2.2⟩

/-- Witness for C7 on a small energy-shield block with one matching
line and one `Recharge` line. -/
theorem energy_filter_characterization_witness :
    esBool [["Energy", "Shield:", "52"], ["Energy", "Shield", "Recharge"]] = true ∧
    ((∀ l : List String,
        l ∈ (extract_stats [["Energy", "Shield:", "52"], ["Energy", "Shield", "Recharge"]]).1 ↔
          l ∈ [["Energy", "Shield:", "52"], ["Energy", "Shield", "Recharge"]] ∧
            ((l.contains "Energy" = true ∧ l.contains "Shield" = true) ∨ l.contains "Shield:" = true) ∧
            l.contains "Recharge" = false ∧ l.contains "maximum" = false) ∧
      (∀ l ∈ (extract_stats [["Energy", "Shield:", "52"], ["Energy", "Shield", "Recharge"]]).1,
        l.contains "Recharge" = false ∧ l.contains "maximum" = false)) :=
  ⟨by decide, energy_filter_characterization _ (by decide)⟩

/-- Claim C8: in the weapon branch (no `Energy` token anywhere, some
`Damage:` token), a line is kept iff it carries `Damage:` (with
`Physical` additionally required when no elemental keyword occurs in
the block), or carries `Attacks`, or carries `increased` but not
`Adds`; in particular a line with both `Attacks` and `Adds` is kept. -/
theorem weapon_filter_characterization (data : List (List String))
    (hes : esBool data = false) (hm : martBool data = true) :
    (∀ l : List String, l ∈ (extract_stats data).1 ↔
      l ∈ data ∧
        ((l.contains "Damage:" = true ∧ (eleBool data = false → l.contains "Physical" = true)) ∨
          l.contains "Attacks" = true ∨
          (l.contains "increased" = true ∧ l.contains "Adds" = false))) ∧
    (∀ l ∈ data, l.contains "Attacks" = true → l.contains "Adds" = true →
      l ∈ (extract_stats data).1) := by
  have hmem : ∀ l : List String, l ∈ (extract_stats data).1 ↔
      l ∈ data ∧
        ((l.contains "Damage:" = true ∧ (eleBool data = false → l.contains "Physical" = true)) ∨
          l.contains "Attacks" = true ∨
          (l.contains "increased" = true ∧ l.contains "Adds" = false)) := by
    intro l
    cases hele : eleBool data with
    | true =>
      have hfst : (extract_stats data).1 = data.filter keepWeaponEle := by
        simp [extract_stats, hes, hm, hele]
      rw [hfst, List.mem_filter]
      simp only [keepWeaponEle, Bool.and_eq_true, Bool.or_eq_true, Bool.not_eq_true']
      constructor
      · rintro ⟨hl, hk⟩
        refine ⟨hl, ?_⟩
        rcases hk with (hd | ha) | hinc
        · exact Or.inl ⟨hd, by simp⟩
        · exact Or.inr (Or.inl ha)
        · exact Or.inr (Or.inr hinc)
      · rintro ⟨hl, hk⟩
        refine ⟨hl, ?_⟩
        rcases hk with ⟨hd, _⟩ | ha | hinc
        · exact Or.inl (Or.inl hd)
        · exact Or.inl (Or.inr ha)
        · exact Or.inr hinc
    | false =>
      have hfst : (extract_stats data).1 = data.filter keepWeaponPhys := by
        simp [extract_stats, hes, hm, hele]
      rw [hfst, List.mem_filter]
      simp only [keepWeaponPhys, Bool.and_eq_true, Bool.or_eq_true, Bool.not_eq_true']
      constructor
      · rintro ⟨hl, hk⟩
        refine ⟨hl, ?_⟩
        rcases hk with (⟨hd, hp⟩ | ha) | hinc
        · exact Or.inl ⟨hd, fun _ => hp⟩
        · exact Or.inr (Or.inl ha)
        · exact Or.inr (Or.inr hinc)
      · rintro ⟨hl, hk⟩
        refine ⟨hl, ?_⟩
        rcases hk with ⟨hd, hp⟩ | ha | hinc
        · exact Or.inl (Or.inl ⟨hd, hp (by trivial)⟩)
        · exact Or.inl (Or.inr ha)
        · exact Or.inr hinc
  refine ⟨hmem, fun l hl ha _ => (hmem l).mpr ⟨hl, Or.inr (Or.inl ha)⟩⟩

/-- Witness for C8 on a weapon block with a physical damage line and an
`Attacks ... Adds` line. -/
theorem weapon_filter_characterization_witness :
    esBool [["Physical", "Damage:", "5"], ["Attacks", "Adds"]] = false ∧
    martBool [["Physical", "Damage:", "5"], ["Attacks", "Adds"]] = true ∧
    ((∀ l : List String,
        l ∈ (extract_stats [["Physical", "Damage:", "5"], ["Attacks", "Adds"]]).1 ↔
          l ∈ [["Physical", "Damage:", "5"], ["Attacks", "Adds"]] ∧
            ((l.contains "Damage:" = true ∧
                (eleBool [["Physical", "Damage:", "5"], ["Attacks", "Adds"]] = false →
                  l.contains "Physical" = true)) ∨
              l.contains "Attacks" = true ∨
              (l.contains "increased" = true ∧ l.contains "Adds" = false))) ∧
      (∀ l ∈ [["Physical", "Damage:", "5"], ["Attacks", "Adds"]],
        l.contains "Attacks" = true → l.contains "Adds" = true →
          l ∈ (extract_stats [["Physical", "Damage:", "5"], ["Attacks", "Adds"]]).1)) :=
  ⟨by decide, by decide, weapon_filter_characterization _ (by decide) (by decide)⟩

theorem evasion_extract_eval :
    extract_armor
        ((extract_stats (tokenizeBlock "Evasion Rating: 150 (+20%)")).1.map pyStrList)
      = [(1502 : ℚ) / 10] := by
  have hmap : (extract_stats (tokenizeBlock "Evasion Rating: 150 (+20%)")).1.map pyStrList
      = [pyStrList ["Evasion", "Rating:", "150", "(+20%)"]] := by decide
  have h1 : strHasDigit (pyStrList ["Evasion", "Rating:", "150", "(+20%)"]) = true := by decide
  have h2 : strHasChar (pyStrList ["Evasion", "Rating:", "150", "(+20%)"]) '%' = true := by decide
  have h3 : strDigits (pyStrList ["Evasion", "Rating:", "150", "(+20%)"]) = 15020 := by decide
  rw [hmap]
  simp [extract_armor_eq_filterMap, armorItemNumber, h1, h2, h3]
  norm_num

theorem evasion_flip_eval :
    flippid_armor [(1502 : ℚ) / 10] false = Except.ok ((27036 : ℚ) / 125) := by
  simp only [flippid_armor, armorFormula]
  norm_num

theorem evasion_cycle_eval :
    runCycle "Evasion Rating: 150 (+20%)"
      = CycleOutput.armorResult false ((27036 : ℚ) / 125) := by
  have hmart : martBool (tokenizeBlock "Evasion Rating: 150 (+20%)") = false := by decide
  have hchest : chestBool (tokenizeBlock "Evasion Rating: 150 (+20%)") = false := by decide
  simp only [runCycle, extract_stats_snd, hmart, hchest, evasion_extract_eval,
    evasion_flip_eval, Bind.bind, Except.bind, Bool.false_eq_true, if_false]

/-- Counterexample to claim C1: on the block `Evasion Rating: 150 (+20%)`
the armor extractor receives the rendered token line and merges all its
digits, yielding the single number `150.2` — not `[150, 0.20]` — and the
cycle's printed result is `216.288`, not `180.0`. -/
theorem evasion_example_deviates :
    extract_armor
        ((extract_stats (tokenizeBlock "Evasion Rating: 150 (+20%)")).1.map pyStrList)
      = [(1502 : ℚ) / 10] ∧
    [(1502 : ℚ) / 10] ≠ [(150 : ℚ), 20 / 100] ∧
    runCycle "Evasion Rating: 150 (+20%)"
      = CycleOutput.armorResult false ((27036 : ℚ) / 125) ∧
    (27036 : ℚ) / 125 ≠ 180 :=
  ⟨evasion_extract_eval, by simp, evasion_cycle_eval, by norm_num⟩

/-- Claim C1 amended: on the block `Evasion Rating: 150 (+20%)` the
armor extractor yields the single merged number `150.2` and
`flippid_armor` with the generic factor 0.2 returns exactly `216.288`. -/
theorem evasion_example_actual :
    extract_armor
        ((extract_stats (tokenizeBlock "Evasion Rating: 150 (+20%)")).1.map pyStrList)
      = [(1502 : ℚ) / 10] ∧
    flippid_armor [(1502 : ℚ) / 10] false = Except.ok ((27036 : ℚ) / 125) ∧
    runCycle "Evasion Rating: 150 (+20%)"
      = CycleOutput.armorResult false ((27036 : ℚ) / 125) :=
  ⟨evasion_extract_eval, evasion_flip_eval, evasion_cycle_eval⟩

theorem weapon_extract_eval :
    extract_weapon
        ((extract_stats
            (tokenizeBlock "Physical Damage: 10-20\nAttacks per Second: 150")).1.map pyStrList)
      = Except.ok ⟨[15], [], [3 / 2]⟩ := by
  have hmap : (extract_stats
        (tokenizeBlock "Physical Damage: 10-20\nAttacks per Second: 150")).1.map pyStrList
      = [pyStrList ["Physical", "Damage:", "10-20"],
         pyStrList ["Attacks", "per", "Second:", "150"]] := by decide
  have hs1 : weaponStep ⟨[], [], []⟩ (pyStrList ["Physical", "Damage:", "10-20"])
      = Except.ok ⟨[15], [], []⟩ := by
    have h1 : strHasDigit (pyStrList ["Physical", "Damage:", "10-20"]) = true := by decide
    have h2 : substrB "Elemental" (pyStrList ["Physical", "Damage:", "10-20"]) = false := by decide
    have h3 : strHasChar (pyStrList ["Physical", "Damage:", "10-20"]) '%' = false := by decide
    have h4 : strHasChar (pyStrList ["Physical", "Damage:", "10-20"]) '-' = true := by decide
    have h5 : parsePairInts
        ((pyStrList ["Physical", "Damage:", "10-20"]).data.filter fun c => c.isDigit || c = '-')
        = Except.ok ((10 : Int), (20 : Int)) := rfl
    have h6 : substrB "Damage" (pyStrList ["Physical", "Damage:", "10-20"]) = true := by decide
    have h7 : substrB "Physical" (pyStrList ["Physical", "Damage:", "10-20"]) = true := by decide
    simp [weaponStep, h1, h2, h3, h4, h5, h6, h7, Bind.bind, Except.bind]
    norm_num
  have hs2 : weaponStep ⟨[15], [], []⟩ (pyStrList ["Attacks", "per", "Second:", "150"])
      = Except.ok ⟨[15], [], [3 / 2]⟩ := by
    have h1 : strHasDigit (pyStrList ["Attacks", "per", "Second:", "150"]) = true := by decide
    have h2 : substrB "Elemental" (pyStrList ["Attacks", "per", "Second:", "150"]) = false := by
      decide
    have h3 : strHasChar (pyStrList ["Attacks", "per", "Second:", "150"]) '%' = false := by decide
    have h4 : strHasChar (pyStrList ["Attacks", "per", "Second:", "150"]) '-' = false := by decide
    have h5 : substrB "Second:" (pyStrList ["Attacks", "per", "Second:", "150"]) = true := by decide
    have h6 : pyInt
        ((pyStrList ["Attacks", "per", "Second:", "150"]).data.filter fun c => c.isDigit || c = '-')
        = Except.ok (150 : Int) := rfl
    simp [weaponStep, h1, h2, h3, h4, h5, h6, Bind.bind, Except.bind]
    norm_num
  rw [hmap]
  simp only [extract_weapon, List.foldlM_cons, List.foldlM_nil, hs1, Bind.bind, Except.bind, hs2]
  rfl

theorem weapon_mart_eval :
    flippid_mart ⟨[15], [], [3 / 2]⟩ = Except.ok ((189 : ℚ) / 5, 0, (189 : ℚ) / 5) := by
  simp only [flippid_mart]
  norm_num

theorem weapon_cycle_eval :
    runCycle "Physical Damage: 10-20\nAttacks per Second: 150"
      = CycleOutput.weaponResult ((189 : ℚ) / 5) 0 ((189 : ℚ) / 5) := by
  have hmart : martBool (tokenizeBlock "Physical Damage: 10-20\nAttacks per Second: 150")
      = true := by decide
  simp only [runCycle, extract_stats_snd, hmart, weapon_extract_eval, weapon_mart_eval,
    Bind.bind, Except.bind, if_true]

/-- Claim C2: on the weapon block `Physical Damage: 10-20` /
`Attacks per Second: 150` (no elemental keywords) extraction yields
physical `[15]`, elemental `[]`, speed `[1.5]`, and `flippid_mart`
returns pDPS `37.8`, eDPS `0`, total `37.8`. -/
theorem weapon_example_end_to_end :
    extract_weapon
        ((extract_stats
            (tokenizeBlock "Physical Damage: 10-20\nAttacks per Second: 150")).1.map pyStrList)
      = Except.ok ⟨[15], [], [3 / 2]⟩ ∧
    flippid_mart ⟨[15], [], [3 / 2]⟩ = Except.ok ((189 : ℚ) / 5, 0, (189 : ℚ) / 5) ∧
    runCycle "Physical Damage: 10-20\nAttacks per Second: 150"
      = CycleOutput.weaponResult ((189 : ℚ) / 5) 0 ((189 : ℚ) / 5) :=
  ⟨weapon_extract_eval, weapon_mart_eval, weapon_cycle_eval⟩

/-- Claim C3: whenever `main` takes the weapon branch and extraction
succeeds with an empty speed bucket, `flippid_mart` raises the
empty-access `IndexError` at `numbers['speed'][0]`; the driver catches
it, reports it instead of any DPS result, and keeps processing the
remaining blocks. -/
theorem missing_speed_error_caught (block : String) (stats : WeaponStats) (rest : List String)
    (hm : martBool (tokenizeBlock block) = true)
    (hext : extract_weapon ((extract_stats (tokenizeBlock block)).1.map pyStrList)
      = Except.ok stats)
    (hspeed : stats.speed = []) :
    flippid_mart stats = Except.error PyErr.indexError ∧
    runCycle block = CycleOutput.errorCaught PyErr.indexError ∧
    runLoop (block :: rest) = CycleOutput.errorCaught PyErr.indexError :: runLoop rest := by
  have hfm : flippid_mart stats = Except.error PyErr.indexError := by
    obtain ⟨p, e, s⟩ := stats
    change s = [] at hspeed
    subst hspeed
    rfl
  have hrc : runCycle block = CycleOutput.errorCaught PyErr.indexError := by
    simp only [runCycle, extract_stats_snd, hm, hext, hfm, Bind.bind, Except.bind, if_true]
  exact ⟨hfm, hrc, by simp only [runLoop, List.map_cons, hrc]⟩

/-- Witness for C3 on the block `Damage: x`: classified as a weapon,
every line is filtered out, so extraction succeeds with empty buckets
and the speed read fails. -/
theorem missing_speed_error_caught_witness :
    martBool (tokenizeBlock "Damage: x") = true ∧
    extract_weapon ((extract_stats (tokenizeBlock "Damage: x")).1.map pyStrList)
      = Except.ok ⟨[], [], []⟩ ∧
    (⟨[], [], []⟩ : WeaponStats).speed = [] ∧
    (flippid_mart ⟨[], [], []⟩ = Except.error PyErr.indexError ∧
      runCycle "Damage: x" = CycleOutput.errorCaught PyErr.indexError ∧
      runLoop ["Damage: x"] = CycleOutput.errorCaught PyErr.indexError :: runLoop []) :=
  ⟨by decide, rfl, rfl,
    missing_speed_error_caught "Damage: x" ⟨[], [], []⟩ [] (by decide) rfl rfl⟩

theorem hasDigit_nil : hasDigit [] = false := rfl

theorem hasDigit_cons (c : Char) (l : List Char) :
    hasDigit (c :: l) = (c.isDigit || hasDigit l) := rfl

theorem hasDigit_append (a b : List Char) :
    hasDigit (a ++ b) = (hasDigit a || hasDigit b) := by
  simp [hasDigit, List.any_append]

theorem hasDigit_pyReprChars (s : String) :
    hasDigit (pyReprChars s) = strHasDigit s := by
  have hq : (Char.ofNat 39).isDigit = false := by decide
  simp [pyReprChars, hasDigit_cons, hasDigit_append, hasDigit_nil, hq, strHasDigit]

theorem hasDigit_pySepChars :
    ∀ l : List String, (∀ t ∈ l, strHasDigit t = false) → hasDigit (pySepChars l) = false := by
  intro l
  induction l with
  | nil => intro _; rfl
  | cons s rest ih =>
    intro h
    cases rest with
    | nil =>
      have hs : strHasDigit s = false := h s (by simp)
      simp [pySepChars, hasDigit_pyReprChars, hs]
    | cons s2 rest2 =>
      have hs : strHasDigit s = false := h s (by simp)
      have hrest : ∀ t ∈ s2 :: rest2, strHasDigit t = false := fun t ht => h t (by simp [ht])
      have hc : (','.isDigit) = false := by decide
      have hsp : (' '.isDigit) = false := by decide
      simp [pySepChars, hasDigit_append, hasDigit_cons, hasDigit_pyReprChars, hs, ih hrest,
        hc, hsp]

theorem strHasDigit_pyStrList (l : List String) (h : ∀ t ∈ l, strHasDigit t = false) :
    strHasDigit (pyStrList l) = false := by
  have h1 : ('['.isDigit) = false := by decide
  have h2 : (']'.isDigit) = false := by decide
  change hasDigit ('[' :: (pySepChars l ++ [']'])) = false
  simp [hasDigit_cons, hasDigit_append, hasDigit_nil, hasDigit_pySepChars l h, h1, h2]

/-- Claim C10: when the armor/energy-shield path keeps no line with a
digit, `extract_armor` returns the empty sequence, `flippid_armor`
raises the empty-access `IndexError` on it (for either factor), and the
driver's catch-all reports the error and moves on to the next block. -/
theorem digitless_armor_error_caught (block : String) (rest : List String)
    (hm : martBool (tokenizeBlock block) = false)
    (hnd : ∀ l ∈ (extract_stats (tokenizeBlock block)).1, ∀ t ∈ l, strHasDigit t = false) :
    extract_armor ((extract_stats (tokenizeBlock block)).1.map pyStrList) = [] ∧
    (∀ check : Bool, flippid_armor [] check = Except.error PyErr.indexError) ∧
    runCycle block = CycleOutput.errorCaught PyErr.indexError ∧
    runLoop (block :: rest) = CycleOutput.errorCaught PyErr.indexError :: runLoop rest := by
  have hE : extract_armor ((extract_stats (tokenizeBlock block)).1.map pyStrList) = [] := by
    rw [extract_armor_eq_filterMap, List.filterMap_map]
    rw [List.filterMap_eq_nil_iff]
    intro l hl
    simp [Function.comp, armorItemNumber, strHasDigit_pyStrList l (hnd l hl)]
  have hrc : runCycle block = CycleOutput.errorCaught PyErr.indexError := by
    cases hchest : chestBool (tokenizeBlock block) with
    | true =>
      simp only [runCycle, extract_stats_snd, hm, hchest, hE, flippid_armor_nil,
        Bind.bind, Except.bind]
      simp
    | false =>
      simp only [runCycle, extract_stats_snd, hm, hchest, hE, flippid_armor_nil,
        Bind.bind, Except.bind]
      simp
  exact ⟨hE, fun _ => rfl, hrc, by simp only [runLoop, List.map_cons, hrc]⟩

/-- Witness for C10 on the digit-free block `Evasion Rating: high`. -/
theorem digitless_armor_error_caught_witness :
    martBool (tokenizeBlock "Evasion Rating: high") = false ∧
    (∀ l ∈ (extract_stats (tokenizeBlock "Evasion Rating: high")).1,
      ∀ t ∈ l, strHasDigit t = false) ∧
    (extract_armor ((extract_stats (tokenizeBlock "Evasion Rating: high")).1.map pyStrList) = [] ∧
      (∀ check : Bool, flippid_armor [] check = Except.error PyErr.indexError) ∧
      runCycle "Evasion Rating: high" = CycleOutput.errorCaught PyErr.indexError ∧
      runLoop ["Evasion Rating: high"]
        = CycleOutput.errorCaught PyErr.indexError :: runLoop []) :=
  ⟨by decide, by decide,
    digitless_armor_error_caught "Evasion Rating: high" [] (by decide) (by decide)⟩

/-- Claim C9: on the armor path `extract_armor` contributes at most one
number per kept line — it inspects the `str`-rendering of the whole
token line, merges every digit of the line into one integer, and
divides by 100 when a `%` occurs anywhere in it — so a line holding a
base value and a percentage yields the single merged number, as the
`Evasion Rating: 150 (+20%)` line's `150.2` shows. -/
theorem armor_extractor_merges_lines :
    (∀ data : List (List String),
      extract_armor (data.map pyStrList)
        = data.filterMap (fun l => armorItemNumber (pyStrList l)) ∧
      (extract_armor (data.map pyStrList)).length ≤ data.length) ∧
    extract_armor ([["Evasion", "Rating:", "150", "(+20%)"]].map pyStrList)
      = [(1502 : ℚ) / 10] := by
  constructor
  · intro data
    have h := extract_armor_eq_filterMap (data.map pyStrList)
    rw [List.filterMap_map] at h
    have h' : extract_armor (data.map pyStrList)
        = data.filterMap (fun l => armorItemNumber (pyStrList l)) := by
      simpa [Function.comp] using h
    exact ⟨h', by rw [h']; exact List.length_filterMap_le _ _⟩
  · have h1 : strHasDigit (pyStrList ["Evasion", "Rating:", "150", "(+20%)"]) = true := by decide
    have h2 : strHasChar (pyStrList ["Evasion", "Rating:", "150", "(+20%)"]) '%' = true := by
      decide
    have h3 : strDigits (pyStrList ["Evasion", "Rating:", "150", "(+20%)"]) = 15020 := by decide
    show extract_armor [pyStrList ["Evasion", "Rating:", "150", "(+20%)"]] = [(1502 : ℚ) / 10]
    simp [extract_armor_eq_filterMap, armorItemNumber, h1, h2, h3]
    norm_num

end Flip
